import Mathlib

/-!
Verification of the IMDb TSV bulk loader (`main.py`).

The loader streams three tab-separated files (name.basics, title.basics,
title.ratings) into PostgreSQL via COPY.  We embed the pure logic of the
script — gzip-vs-plain file dispatch, the header-to-column mapping
dictionary, the soft header check, COPY text-mode row parsing with the
`\N` null token, the post-load COUNT(*) report, and the orchestration in
`main` — as executable Lean definitions, and prove the specified
properties about them.

Modelling conventions:
* A file store is a partial map from paths to `FileBytes`; a gzipped file
  is represented by the UTF-8 text its single-member gzip stream
  decompresses to.  Reading a gzip blob as plain UTF-8 (or a plain file
  through the gzip decoder) is modelled as a decode failure (`none`).
* COPY TEXT-mode field values are kept as text (`Option String`): `none`
  models SQL NULL, `some s` the pre-cast text of the field.
* A Python `KeyError` / raised exception is modelled by `Option` failure.
-/

namespace ImdbLoader

/-- Fields of the name.basics header, in canonical order (`NAME_COLS` in `main.py`). -/
def NAME_COLS : List String :=
  ["nconst", "primaryName", "birthYear", "deathYear", "primaryProfession", "knownForTitles"]

/-- Fields of the title.basics header, in canonical order (`TITLE_COLS` in `main.py`). -/
def TITLE_COLS : List String :=
  ["tconst", "titleType", "primaryTitle", "originalTitle",
   "isAdult", "startYear", "endYear", "runtimeMinutes", "genres"]

/-- Fields of the title.ratings header, in canonical order (`RATING_COLS` in `main.py`). -/
def RATING_COLS : List String := ["tconst", "averageRating", "numVotes"]

/-- The fixed source-field-name to destination-column-name dictionary inside
`copy_tsv` (`mapping`, `main.py` lines 107-128).  A lookup of a key absent
from the dictionary raises `KeyError` in Python; here it returns `none`. -/
def mapping : String → Option String
  | "nconst" => some "nconst"
  | "primaryName" => some "primary_name"
  | "birthYear" => some "birth_year"
  | "deathYear" => some "death_year"
  | "primaryProfession" => some "primary_profession"
  | "knownForTitles" => some "known_for_titles"
  | "tconst" => some "tconst"
  | "titleType" => some "title_type"
  | "primaryTitle" => some "primary_title"
  | "originalTitle" => some "original_title"
  | "isAdult" => some "is_adult"
  | "startYear" => some "start_year"
  | "endYear" => some "end_year"
  | "runtimeMinutes" => some "runtime_minutes"
  | "genres" => some "genres"
  | "averageRating" => some "average_rating"
  | "numVotes" => some "num_votes"
  | _ => none

/-- The list comprehension `[mapping[c] for c in tsv_header_cols_in_order]`
(`main.py` line 130): maps every header field through the dictionary, failing
(Python `KeyError`) as soon as one field is unknown. -/
def ordered_table_cols : List String → Option (List String)
  | [] => some []
  | c :: cs =>
    match mapping c, ordered_table_cols cs with
    | some d, some ds => some (d :: ds)
    | _, _ => none

/-- The null token of the IMDb TSV format: a backslash followed by capital N
(the `NULL '\N'` clause of the COPY statement, `main.py` line 133). -/
def NULL_TOKEN : String := "\\N"

/-- Byte-level content of a stored file: either plain UTF-8 text, or a
single-member gzip stream that decompresses to the given UTF-8 text. -/
inductive FileBytes
  | plain (text : String)
  | gzipped (text : String)
  deriving DecidableEq

/-- A file store: partial map from paths to file contents. -/
def FileStore : Type := String → Option FileBytes

/-- A file store holding a single file. -/
def singleFile (path : String) (fb : FileBytes) : FileStore :=
  fun p => if p = path then some fb else none

/-- Suffix test on strings, modelling Python's case-sensitive `str.endswith`. -/
def strEndsWith (s suf : String) : Bool := List.isSuffixOf suf.data s.data

/-- Embeds `open_textmaybe_gz` (`main.py` lines 66-72): if the path ends with
`".gz"` the byte stream is gzip-decompressed before UTF-8 decoding, otherwise
the raw bytes are decoded directly.  A missing file, a gzip decode of a
non-gzip file, or a direct UTF-8 decode of a gzip blob is a failure. -/
def open_textmaybe_gz (fs : FileStore) (path : String) : Option String :=
  if strEndsWith path ".gz" then
    match fs path with
    | some (FileBytes.gzipped t) => some t
    | _ => none
  else
    match fs path with
    | some (FileBytes.plain t) => some t
    | _ => none

/-- Splits a character list on a separator character; the result always has
one more group than there are separators (so `[]` yields one empty group),
matching Python's `str.split(sep)` and COPY's field/line structure. -/
def splitOnChar (sep : Char) : List Char → List (List Char)
  | [] => [[]]
  | c :: cs =>
    if c = sep then [] :: splitOnChar sep cs
    else
      match splitOnChar sep cs with
      | [] => [[c]]
      | g :: gs => (c :: g) :: gs

/-- Characters stripped by Python's `str.strip()` (ASCII whitespace). -/
def isPySpace (c : Char) : Bool :=
  c = ' ' || c = '\t' || c = '\n' || c = '\r' || c = '\x0b' || c = '\x0c'

/-- Models Python's `str.strip()`: removes leading and trailing whitespace. -/
def pyStrip (s : String) : String :=
  String.mk (((s.data.dropWhile isPySpace).reverse.dropWhile isPySpace).reverse)

/-- Models `f.readline()` on a text stream positioned at the start: returns
the first line (including its terminating newline, if any) and the remainder
of the stream. -/
def readlineChars : List Char → List Char × List Char
  | [] => ([], [])
  | c :: cs =>
    if c = '\n' then ([c], cs)
    else (c :: (readlineChars cs).1, (readlineChars cs).2)

/-- String-level `readline`: first line (with its newline) and the rest. -/
def readline (s : String) : String × String :=
  (String.mk (readlineChars s.data).1, String.mk (readlineChars s.data).2)

/-- Splits a COPY body into its data lines: newline-separated, with the
segment after a terminating final newline not counting as a line (and an
empty body holding no lines). -/
def splitLines (s : String) : List String :=
  if s.data = [] then []
  else
    let parts := (splitOnChar '\n' s.data).map String.mk
    if s.data.getLast? = some '\n' then parts.dropLast else parts

/-- Splits one data line into its tab-separated raw field texts. -/
def split_fields (line : String) : List String :=
  (splitOnChar '\t' line.data).map String.mk

/-- COPY TEXT-mode interpretation of one raw field: the null token becomes
SQL NULL (`none`), anything else is kept as its text. -/
def parseField (f : String) : Option String :=
  if f = NULL_TOKEN then none else some f

/-- COPY TEXT-mode interpretation of one data line: tab-split fields, each
put through `parseField`. -/
def parseRow (line : String) : List (Option String) :=
  (split_fields line).map parseField

/-- Observable outcome of one `copy_tsv` call: the components of the issued
COPY statement (schema, table, destination column list), whether the soft
header check warned, and the data rows streamed into the table. -/
structure CopyResult where
  copySchema : String
  copyTable : String
  copyCols : List String
  warned : Bool
  rows : List (List (Option String))
  deriving DecidableEq

/-- Embeds `copy_tsv` (`main.py` lines 94-159): builds the destination
column list from the header fields via `mapping` (the `table_cols_in_order`
argument is accepted but never read, exactly as in the source), opens the
file transparently, consumes the header line, compares its stripped text
against the tab-joined expected header (warning on mismatch, proceeding
either way), and streams the remaining lines as tab-delimited rows with
`\N` as NULL. -/
def copy_tsv (fs : FileStore) (inputSchema inputTable file_path : String)
    (table_cols_in_order tsv_header_cols_in_order : List String) : Option CopyResult :=
  match ordered_table_cols tsv_header_cols_in_order with
  | none => none
  | some cols =>
    match open_textmaybe_gz fs file_path with
    | none => none
    | some content =>
      let header := (readline content).1
      let body := (readline content).2
      let expected := String.intercalate "\t" tsv_header_cols_in_order
      some { copySchema := inputSchema
             copyTable := inputTable
             copyCols := cols
             warned := decide (pyStrip header ≠ expected)
             rows := (splitLines body).map parseRow }

/-- Runs `copy_tsv` against a destination-table state: COPY appends the new
rows to the rows already present, and the trailing `SELECT COUNT(*)` reports
the table's total row count.  Returns the new table state and the reported
count. -/
def copy_tsv_state (prev : List (List (Option String))) (fs : FileStore)
    (inputSchema inputTable file_path : String)
    (table_cols_in_order tsv_header_cols_in_order : List String) :
    Option (List (List (Option String)) × Nat) :=
  match copy_tsv fs inputSchema inputTable file_path
      table_cols_in_order tsv_header_cols_in_order with
  | none => none
  | some res => some (prev ++ res.rows, (prev ++ res.rows).length)

/-- Observable side-effecting steps taken by `main` after a successful
connection. -/
inductive Action
  | runDDL (schemaName : String)
  | truncateTable (schemaName tableName : String)
  | load (tableName filePath : String)
  deriving DecidableEq

/-- Observable outcome of a `main` run: the process exit code, whether the
connection failure message was printed, and the ordered steps performed. -/
structure MainResult where
  exitCode : Nat
  connectErrorReported : Bool
  actions : List Action
  deriving DecidableEq

/-- Embeds the control flow of `main` (`main.py` lines 161-244): a failed
`psycopg2.connect` prints the error and exits with code 1 before any other
step; otherwise the DDL runs, the three tables are truncated when the flag
is set, and the three files are loaded in order (the success path, on which
every step succeeds, ends with exit code 0). -/
def main_model (connectOk : Bool) (schemaName namePath titlePath ratingsPath : String)
    (truncateFlag : Bool) : MainResult :=
  if connectOk then
    { exitCode := 0
      connectErrorReported := false
      actions :=
        [Action.runDDL schemaName]
        ++ (if truncateFlag then
              [Action.truncateTable schemaName "name_basics",
               Action.truncateTable schemaName "title_basics",
               Action.truncateTable schemaName "title_ratings"]
            else [])
        ++ [Action.load "name_basics" namePath,
            Action.load "title_basics" titlePath,
            Action.load "title_ratings" ratingsPath] }
  else
    { exitCode := 1, connectErrorReported := true, actions := [] }

/-- The destination column order of `title_ratings` as passed by `main`. -/
def ratingTableCols : List String := ["tconst", "average_rating", "num_votes"]

/-- The two-data-row rating file of the specification's worked example. -/
def ratingExampleContent : String :=
  "tconst\taverageRating\tnumVotes\ntt0000001\t5.6\t1645\ntt0000002\t\\N\t0\n"

/-- A file store holding a gzipped and a plain copy of the example rating file. -/
def twoCopyStore : FileStore := fun p =>
  if p = "r.tsv.gz" then some (FileBytes.gzipped ratingExampleContent)
  else if p = "r.tsv" then some (FileBytes.plain ratingExampleContent)
  else none

/-- Every pair of a list zipped with its own image under a map relates the
second component to the map of the first. -/
theorem zip_map_snd {α β : Type} (f : α → β) :
    ∀ (l : List α) (p : α × β), p ∈ l.zip (l.map f) → p.2 = f p.1 := by
  intro l
  induction l with
  | nil => intro p hp; simp at hp
  | cons a l ih =>
    intro p hp
    simp only [List.map_cons, List.zip_cons_cons, List.mem_cons] at hp
    rcases hp with h | h
    · subst h; rfl
    · exact ih p h

/-- A successful column mapping has one destination column per header field,
each obtained from its own field through the dictionary. -/
theorem otc_length_zip :
    ∀ (hdr cols : List String), ordered_table_cols hdr = some cols →
      cols.length = hdr.length ∧ ∀ p ∈ hdr.zip cols, mapping p.1 = some p.2 := by
  intro hdr
  induction hdr with
  | nil =>
    intro cols h
    simp only [ordered_table_cols, Option.some.injEq] at h
    subst h; simp
  | cons c cs ih =>
    intro cols h
    cases hm : mapping c with
    | none => simp [ordered_table_cols, hm] at h
    | some d =>
      cases hr : ordered_table_cols cs with
      | none => simp [ordered_table_cols, hm, hr] at h
      | some ds =>
        simp only [ordered_table_cols, hm, hr, Option.some.injEq] at h
        subst h
        obtain ⟨hlen, hzip⟩ := ih ds hr
        refine ⟨by simp [hlen], ?_⟩
        intro p hp
        simp only [List.zip_cons_cons, List.mem_cons] at hp
        rcases hp with h | h
        · subst h; exact hm
        · exact hzip p h

/-- A header whose every field is in the dictionary maps successfully. -/
theorem otc_isSome (hdr : List String) (h : ∀ c ∈ hdr, (mapping c).isSome = true) :
    (ordered_table_cols hdr).isSome = true := by
  induction hdr with
  | nil => rfl
  | cons c cs ih =>
    have hc := h c (List.mem_cons_self c cs)
    cases hm : mapping c with
    | none => rw [hm] at hc; simp at hc
    | some d =>
      have hrest := ih (fun x hx => h x (List.mem_cons_of_mem c hx))
      cases hr : ordered_table_cols cs with
      | none => rw [hr] at hrest; simp at hrest
      | some ds => simp [ordered_table_cols, hm, hr]

/-- A header containing a field outside the dictionary fails to map. -/
theorem otc_none (hdr : List String) (c : String) (hc : c ∈ hdr)
    (hn : mapping c = none) : ordered_table_cols hdr = none := by
  induction hdr with
  | nil => simp at hc
  | cons a l ih =>
    rcases List.mem_cons.mp hc with h | h
    · subst h; simp [ordered_table_cols, hn]
    · cases hm : mapping a <;> simp [ordered_table_cols, hm, ih h]

/-- Reading one line from a stream whose first line is newline-free consumes
exactly that line and its newline. -/
theorem readlineChars_append (l r : List Char) (hl : '\n' ∉ l) :
    readlineChars (l ++ '\n' :: r) = (l ++ ['\n'], r) := by
  induction l with
  | nil => simp [readlineChars]
  | cons c cs ih =>
    have hc : ¬c = '\n' := fun h => hl (by simp [h])
    have hcs : '\n' ∉ cs := fun h => hl (List.mem_cons_of_mem c h)
    simp [readlineChars, hc, ih hcs]

/-- String-level version of `readlineChars_append`. -/
theorem readline_append (l1 body : String) (h : '\n' ∉ l1.data) :
    readline (l1 ++ "\n" ++ body) = (l1 ++ "\n", body) := by
  have hnl : ("\n" : String).data = ['\n'] := rfl
  have hdata : (l1 ++ "\n" ++ body).data = l1.data ++ '\n' :: body.data := by
    rw [String.data_append, String.data_append, hnl]
    simp
  unfold readline
  rw [hdata, readlineChars_append l1.data body.data h]
  rfl

/-- C1: every streamed field equal to the two-character null token is stored
as an absent value (`none`) in its destination column — not the token text
and not zero — and loading the specification's example rating file yields
one row with average rating "5.6" and one with average rating absent. -/
theorem null_token_loads_as_absent :
    (∀ (line : String), ∀ p ∈ (split_fields line).zip (parseRow line),
        p.1 = NULL_TOKEN → p.2 = none)
    ∧ copy_tsv (singleFile "ratings.tsv" (FileBytes.plain ratingExampleContent))
        "imdb" "title_ratings" "ratings.tsv" ratingTableCols RATING_COLS
      = some { copySchema := "imdb", copyTable := "title_ratings",
               copyCols := ["tconst", "average_rating", "num_votes"], warned := false,
               rows := [[some "tt0000001", some "5.6", some "1645"],
                        [some "tt0000002", none, some "0"]] } := by
  constructor
  · intro line p hp hnull
    have hmap := zip_map_snd parseField (split_fields line) p hp
    rw [hmap, hnull]
    simp [parseField]
  · decide

/-- Witness for C1 at the null field of the example's second data row. -/
theorem null_token_loads_as_absent_witness :
    (("\\N", (none : Option String)) : String × Option String).2 = none :=
  null_token_loads_as_absent.1 "tt0000002\t\\N\t0" ("\\N", none) (by decide) (by decide)

/-- C2: the Column Mapper is order-independent — for any reordering of a
header list of known field names, the mapping succeeds and pairs each header
field, at its own position, with that field's destination column. -/
theorem column_mapper_order_independent (hdr hdr2 : List String)
    (hperm : List.Perm hdr2 hdr) (hknown : ∀ c ∈ hdr, (mapping c).isSome = true) :
    (ordered_table_cols hdr2).isSome = true
    ∧ ∀ cols2, ordered_table_cols hdr2 = some cols2 →
        cols2.length = hdr2.length ∧ ∀ p ∈ hdr2.zip cols2, mapping p.1 = some p.2 := by
  have hknown2 : ∀ c ∈ hdr2, (mapping c).isSome = true :=
    fun c hc => hknown c (hperm.mem_iff.mp hc)
  exact ⟨otc_isSome hdr2 hknown2, fun cols2 h => otc_length_zip hdr2 cols2 h⟩

/-- Witness for C2 on a reordering of the rating header. -/
theorem column_mapper_order_independent_witness :
    ((ordered_table_cols ["numVotes", "tconst", "averageRating"]).isSome = true)
    ∧ ((["num_votes", "tconst", "average_rating"] : List String).length
          = (["numVotes", "tconst", "averageRating"] : List String).length
        ∧ ∀ p ∈ (["numVotes", "tconst", "averageRating"] : List String).zip
            ["num_votes", "tconst", "average_rating"], mapping p.1 = some p.2) := by
  have h := column_mapper_order_independent RATING_COLS
    ["numVotes", "tconst", "averageRating"] (by decide) (by decide)
  exact ⟨h.1, h.2 ["num_votes", "tconst", "average_rating"] rfl⟩

/-- C3 counterexample: a rating file whose first line carries a trailing
space differs verbatim from the tab-joined expected header — with or without
its line terminator — yet the loader does not warn, because the source
strips surrounding whitespace before comparing. -/
theorem header_check_not_verbatim_cex :
    (readline "tconst\taverageRating\tnumVotes \ntt0000001\t5.6\t1645\n").1
        = "tconst\taverageRating\tnumVotes \n"
    ∧ "tconst\taverageRating\tnumVotes \n" ≠ String.intercalate "\t" RATING_COLS
    ∧ "tconst\taverageRating\tnumVotes " ≠ String.intercalate "\t" RATING_COLS
    ∧ (copy_tsv (singleFile "r.tsv"
          (FileBytes.plain "tconst\taverageRating\tnumVotes \ntt0000001\t5.6\t1645\n"))
          "imdb" "title_ratings" "r.tsv" ratingTableCols RATING_COLS).map CopyResult.warned
        = some false := by
  exact ⟨by decide, by decide, by decide, by decide⟩

/-- C3 (amended): the loader consumes exactly the first line of the opened
stream and warns exactly when that line, stripped of leading and trailing
whitespace (including its line terminator), differs from the tab-joined
expected header; in both cases the load proceeds, with the remaining lines
as the data body. -/
theorem header_check_soft (fs : FileStore) (inputSchema inputTable path : String)
    (tco hdr : List String) (res : CopyResult)
    (h : copy_tsv fs inputSchema inputTable path tco hdr = some res) :
    ∀ content, open_textmaybe_gz fs path = some content →
      (res.warned = true ↔ pyStrip (readline content).1 ≠ String.intercalate "\t" hdr)
      ∧ res.rows = (splitLines (readline content).2).map parseRow := by
  intro content hc
  unfold copy_tsv at h
  cases ho : ordered_table_cols hdr with
  | none => rw [ho] at h; simp at h
  | some cols =>
    rw [ho, hc] at h
    simp only [Option.some.injEq] at h
    subst h
    exact ⟨by simp, rfl⟩

/-- Witness for C3's amended theorem on a mismatching one-row file. -/
theorem header_check_soft_witness :
    ((CopyResult.mk "imdb" "title_ratings" ["tconst", "average_rating", "num_votes"]
        true [[some "x"]]).warned = true
      ↔ pyStrip (readline "bad\nx\n").1 ≠ String.intercalate "\t" RATING_COLS)
    ∧ (CopyResult.mk "imdb" "title_ratings" ["tconst", "average_rating", "num_votes"]
        true [[some "x"]]).rows
        = (splitLines (readline "bad\nx\n").2).map parseRow :=
  header_check_soft (singleFile "r.tsv" (FileBytes.plain "bad\nx\n"))
    "imdb" "title_ratings" "r.tsv" ratingTableCols RATING_COLS _ rfl "bad\nx\n" rfl

/-- C4: the source-to-destination mapping dictionary is total over all three
known header lists, and a header containing any field name outside that set
makes the Column Mapper fail (a raised KeyError, modelled as `none`) rather
than skip the field or pass its name through. -/
theorem mapping_total_and_fails_loudly :
    (∀ c ∈ NAME_COLS, (mapping c).isSome = true)
    ∧ (∀ c ∈ TITLE_COLS, (mapping c).isSome = true)
    ∧ (∀ c ∈ RATING_COLS, (mapping c).isSome = true)
    ∧ ∀ (hdr : List String) (c : String), c ∈ hdr → mapping c = none →
        ordered_table_cols hdr = none := by
  exact ⟨by decide, by decide, by decide, fun hdr c hc hn => otc_none hdr c hc hn⟩

/-- Witness for C4: a known field maps, an unknown field aborts the mapping. -/
theorem mapping_total_and_fails_loudly_witness :
    (mapping "nconst").isSome = true
    ∧ ordered_table_cols ["tconst", "budget"] = none :=
  ⟨mapping_total_and_fails_loudly.1 "nconst" (by decide),
   mapping_total_and_fails_loudly.2.2.2 ["tconst", "budget"] "budget" (by decide) (by decide)⟩

/-- C5: the post-load count query reports the destination table's total row
count — the rows already present plus the rows added by this run — not the
number of rows added. -/
theorem count_reports_cumulative_total (prev : List (List (Option String)))
    (fs : FileStore) (inputSchema inputTable path : String) (tco hdr : List String)
    (tbl : List (List (Option String))) (n : Nat)
    (h : copy_tsv_state prev fs inputSchema inputTable path tco hdr = some (tbl, n)) :
    n = tbl.length
    ∧ ∀ res, copy_tsv fs inputSchema inputTable path tco hdr = some res →
        tbl = prev ++ res.rows ∧ n = prev.length + res.rows.length := by
  unfold copy_tsv_state at h
  cases hr : copy_tsv fs inputSchema inputTable path tco hdr with
  | none => rw [hr] at h; simp at h
  | some res =>
    rw [hr] at h
    simp only [Option.some.injEq, Prod.mk.injEq] at h
    obtain ⟨htbl, hn⟩ := h
    subst htbl
    subst hn
    refine ⟨rfl, ?_⟩
    intro res2 hres2
    simp only [Option.some.injEq] at hres2
    subst hres2
    exact ⟨rfl, by simp⟩

/-- Witness for C5: one prior row plus the example's two loaded rows is
reported as a total of three. -/
theorem count_reports_cumulative_total_witness :
    (3 : Nat) = ([[some "old"], [some "tt0000001", some "5.6", some "1645"],
                  [some "tt0000002", none, some "0"]]
        : List (List (Option String))).length :=
  (count_reports_cumulative_total [[some "old"]]
    (singleFile "ratings.tsv" (FileBytes.plain ratingExampleContent))
    "imdb" "title_ratings" "ratings.tsv" ratingTableCols RATING_COLS _ 3 rfl).1

/-- C6: a path with the ".gz" suffix is gzip-decompressed and any other path
is read as raw text, so a compressed and an uncompressed copy of the same
logical file stream identical contents and load identical rows. -/
theorem compressed_and_plain_copies_agree (fs : FileStore) (pgz pp t : String)
    (hgz : strEndsWith pgz ".gz" = true) (hp : strEndsWith pp ".gz" = false)
    (h1 : fs pgz = some (FileBytes.gzipped t)) (h2 : fs pp = some (FileBytes.plain t)) :
    open_textmaybe_gz fs pgz = some t
    ∧ open_textmaybe_gz fs pp = some t
    ∧ ∀ inputSchema inputTable tco hdr,
        copy_tsv fs inputSchema inputTable pgz tco hdr
          = copy_tsv fs inputSchema inputTable pp tco hdr := by
  have o1 : open_textmaybe_gz fs pgz = some t := by
    unfold open_textmaybe_gz
    rw [hgz, h1]
    simp
  have o2 : open_textmaybe_gz fs pp = some t := by
    unfold open_textmaybe_gz
    rw [hp, h2]
    simp
  refine ⟨o1, o2, ?_⟩
  intro inputSchema inputTable tco hdr
  unfold copy_tsv
  rw [o1, o2]

/-- Witness for C6 on gzipped and plain copies of the example rating file. -/
theorem compressed_and_plain_copies_agree_witness :
    open_textmaybe_gz twoCopyStore "r.tsv.gz" = some ratingExampleContent
    ∧ open_textmaybe_gz twoCopyStore "r.tsv" = some ratingExampleContent
    ∧ copy_tsv twoCopyStore "imdb" "title_ratings" "r.tsv.gz" ratingTableCols RATING_COLS
        = copy_tsv twoCopyStore "imdb" "title_ratings" "r.tsv" ratingTableCols RATING_COLS := by
  have h := compressed_and_plain_copies_agree twoCopyStore "r.tsv.gz" "r.tsv"
    ratingExampleContent (by decide) (by decide) (by decide) (by decide)
  exact ⟨h.1, h.2.1, h.2.2 "imdb" "title_ratings" ratingTableCols RATING_COLS⟩

/-- C7: when the initial connection fails, `main` reports the failure and
exits with code 1, performing no DDL, no truncation, and no load. -/
theorem connect_failure_exits_immediately
    (schemaName namePath titlePath ratingsPath : String) (truncateFlag : Bool) :
    (main_model false schemaName namePath titlePath ratingsPath truncateFlag).exitCode = 1
    ∧ (main_model false schemaName namePath titlePath ratingsPath
        truncateFlag).connectErrorReported = true
    ∧ (main_model false schemaName namePath titlePath ratingsPath truncateFlag).actions = [] :=
  ⟨rfl, rfl, rfl⟩

/-- C8: the `table_cols_in_order` argument is dead — any two values of it
give the same COPY statement and the same result, because the destination
column list is derived solely from the header fields via the dictionary. -/
theorem table_cols_in_order_has_no_effect (fs : FileStore)
    (inputSchema inputTable path : String) (tco1 tco2 hdr : List String) :
    copy_tsv fs inputSchema inputTable path tco1 hdr
      = copy_tsv fs inputSchema inputTable path tco2 hdr := rfl

/-- C9: compression dispatch is an exact, case-sensitive check for the
lowercase suffix ".gz": such a path goes through the gzip decoder (so plain
bytes behind it fail to decode), while ".GZ", ".tgz", or any other path is
decoded directly as plain UTF-8 text. -/
theorem gz_suffix_exact_case_sensitive :
    (∀ (fs : FileStore) (path t : String), strEndsWith path ".gz" = false →
        fs path = some (FileBytes.plain t) → open_textmaybe_gz fs path = some t)
    ∧ (∀ (fs : FileStore) (path t : String), strEndsWith path ".gz" = true →
        fs path = some (FileBytes.plain t) → open_textmaybe_gz fs path = none)
    ∧ strEndsWith "data.tsv.gz" ".gz" = true
    ∧ strEndsWith "data.tsv.GZ" ".gz" = false
    ∧ strEndsWith "data.tgz" ".gz" = false
    ∧ open_textmaybe_gz (singleFile "data.tsv.GZ" (FileBytes.plain "hello"))
        "data.tsv.GZ" = some "hello" := by
  refine ⟨?_, ?_, by decide, by decide, by decide, by decide⟩
  · intro fs path t hsuf hfs
    unfold open_textmaybe_gz
    rw [hsuf, hfs]
    simp
  · intro fs path t hsuf hfs
    unfold open_textmaybe_gz
    rw [hsuf, hfs]
    simp

/-- Witness for C9: a plain file without the suffix reads through, a plain
file with the suffix fails gzip decoding. -/
theorem gz_suffix_exact_case_sensitive_witness :
    open_textmaybe_gz (singleFile "data.tsv" (FileBytes.plain "hello")) "data.tsv"
        = some "hello"
    ∧ open_textmaybe_gz (singleFile "weird.gz" (FileBytes.plain "hello")) "weird.gz"
        = none :=
  ⟨gz_suffix_exact_case_sensitive.1 (singleFile "data.tsv" (FileBytes.plain "hello"))
      "data.tsv" "hello" (by decide) (by decide),
   gz_suffix_exact_case_sensitive.2.1 (singleFile "weird.gz" (FileBytes.plain "hello"))
      "weird.gz" "hello" (by decide) (by decide)⟩

/-- C10: exactly the first line is consumed before the stream is handed to
COPY — the data rows are exactly those of the body after the first newline,
whatever the first line says — and an empty input loads zero data rows. -/
theorem header_line_consumed_exactly_once (l1 body : String) (hl1 : '\n' ∉ l1.data) :
    readline (l1 ++ "\n" ++ body) = (l1 ++ "\n", body)
    ∧ (∀ (inputSchema inputTable : String) (tco hdr : List String) (res : CopyResult),
        copy_tsv (singleFile "f.tsv" (FileBytes.plain (l1 ++ "\n" ++ body)))
            inputSchema inputTable "f.tsv" tco hdr = some res →
          res.rows = (splitLines body).map parseRow)
    ∧ (∀ (inputSchema inputTable : String) (tco hdr : List String) (res : CopyResult),
        copy_tsv (singleFile "f.tsv" (FileBytes.plain ""))
            inputSchema inputTable "f.tsv" tco hdr = some res →
          res.rows = []) := by
  have hend : strEndsWith "f.tsv" ".gz" = false := rfl
  have hread := readline_append l1 body hl1
  refine ⟨hread, ?_, ?_⟩
  · intro inputSchema inputTable tco hdr res h
    have hopen : open_textmaybe_gz
        (singleFile "f.tsv" (FileBytes.plain (l1 ++ "\n" ++ body))) "f.tsv"
        = some (l1 ++ "\n" ++ body) := by
      unfold open_textmaybe_gz
      rw [hend]
      simp [singleFile]
    unfold copy_tsv at h
    cases ho : ordered_table_cols hdr with
    | none => rw [ho] at h; simp at h
    | some cols =>
      rw [ho, hopen] at h
      simp only [Option.some.injEq] at h
      subst h
      simp [hread]
  · intro inputSchema inputTable tco hdr res h
    have hopen : open_textmaybe_gz (singleFile "f.tsv" (FileBytes.plain "")) "f.tsv"
        = some "" := by
      unfold open_textmaybe_gz
      rw [hend]
      simp [singleFile]
    unfold copy_tsv at h
    cases ho : ordered_table_cols hdr with
    | none => rw [ho] at h; simp at h
    | some cols =>
      rw [ho, hopen] at h
      simp only [Option.some.injEq] at h
      subst h
      simp [readline, readlineChars, splitLines]

/-- Witness for C10 with the header "tconst" and the one-row body "a". -/
theorem header_line_consumed_exactly_once_witness :
    readline ("tconst" ++ "\n" ++ "a\n") = ("tconst" ++ "\n", "a\n")
    ∧ (CopyResult.mk "imdb" "title_ratings" ["tconst", "average_rating", "num_votes"]
        true []).rows = [] := by
  have h := header_line_consumed_exactly_once "tconst" "a\n" (by decide)
  exact ⟨h.1, h.2.2 "imdb" "title_ratings" ratingTableCols RATING_COLS _ rfl⟩

end ImdbLoader
